import Mathlib

/-!
Verification development for the annotation-tool coordination core
(`src/infra/scheduler.py`, `src/app/states.py`, `src/app/controller.py`,
`src/app/session.py`, `src/app/explorer_controller.py`, `src/ui/explorer.py`).

The Python code is shallowly embedded: every stateful object becomes a Lean
structure, every method a pure function from the old state to the new state
together with the list of Qt signals it emits (`Event`).  Machine integers are
`Nat`/`Int`; Python values whose precise shape matters only through key
presence are modelled by `PyVal` (a dict with optional keys, a non-dict value,
or `None`); a Python method that can raise while handling an Outcome returns
`Except` carrying the partially-performed mutations and emissions.
-/

set_option maxHeartbeats 1000000
set_option maxRecDepth 8000

/-- A Python value delivered as a task result.  A dict carries the optional
keys that the handlers in `controller.py` / `states.py` actually read;
`data_annotations` stands for the nested access `result["data"]["annotations"]`
(`none` means the access raises `KeyError`), `user_pwd` for
`creds["user"]`/`creds["pwd"]`. -/
structure DictVal where
  data_annotations : Option Nat
  user_pwd : Option Nat
  mask_sam : Option Nat
  mask_binary : Option Nat
  rgba_mask : Option Nat
  embedding : Option Nat
  polygons : Option Nat
  image_ref : Option Nat
deriving DecidableEq, Repr

inductive PyVal
  | pdict (d : DictVal)
  | nonDict (v : Nat)
  | pynone
deriving DecidableEq, Repr

/-- Model of `isinstance(result, dict)` -/
def PyVal.isDict : PyVal → Bool
  | .pdict _ => true
  | _ => false

/-- Which submission site created a task (the closure passed to
`Scheduler.submit`); used to identify submissions in the model's log. -/
inductive TaskKind
  | saveTask          -- SwitchingState._start_sequence: update_annotations "Annotating"
  | loadTask          -- SwitchingState._do_load: fetch_image_data
  | segmentTask       -- SwitchingState._do_segment: segment_image
  | pushTask          -- SubmittingState.enter: update_annotations target_status
  | loginTask         -- Controller.request_login
  | polygonTask       -- Controller.on_action_generate_polygons
  | debounceSegTask   -- Controller._on_debounce_timeout: segment_points
  | pipelineSegTask   -- Controller._run_pipeline_segmentation: segment_pipeline
  | listTask          -- ExplorerController.fetch_list
  | downloadTask      -- ExplorerController.download_thumbnail
deriving DecidableEq, Repr

/-- One record per `Scheduler.submit` call: the allocated request id, the
`generation` argument passed by the caller, and the submission site. -/
structure SubRec where
  request : Nat
  generation : Nat
  kind : TaskKind
deriving DecidableEq, Repr

/-- Model of `infra/scheduler.py`: the scheduler's only correlation state is the
counter `_next_id` (initialised to 1).  `log` records the submissions made
through it, in submission order. -/
structure Scheduler where
  nextId : Nat
  log : List SubRec
deriving DecidableEq, Repr

def Scheduler.init : Scheduler := { nextId := 1, log := [] }

/-- The `{request, generation}` dataclass returned by `submit`. -/
structure Token where
  request : Nat
  generation : Nat
deriving DecidableEq, Repr

/-- Model of `Scheduler.submit`: allocate `request = self._next_id`, increment the
counter, start the runnable, and return the token. -/
def Scheduler.submit (s : Scheduler) (kind : TaskKind) (generation : Nat) :
    Token × Scheduler :=
  let request := s.nextId
  (⟨request, generation⟩,
   { nextId := s.nextId + 1, log := s.log ++ [⟨request, generation, kind⟩] })

/-- Submit a whole sequence of tasks, collecting the returned tokens. -/
def Scheduler.submitMany (s : Scheduler) : List (TaskKind × Nat) → List Token × Scheduler
  | [] => ([], s)
  | (k, g) :: rest =>
      let (tok, s') := s.submit k g
      let (toks, s'') := s'.submitMany rest
      (tok :: toks, s'')

/-- A task body: a niladic Python callable that either returns a value or
raises (the raised exception rendered as its message string). -/
def TaskBody := Except String PyVal

/-- The success/failure Outcome marshalled back to the coordinating thread:
`task_result.emit(request, generation, result)` or
`task_error.emit(request, generation, error)`. -/
inductive Outcome
  | taskResult (request generation : Nat) (v : PyVal)
  | taskError (request generation : Nat) (e : String)
deriving DecidableEq, Repr

def Outcome.request : Outcome → Nat
  | .taskResult r _ _ => r
  | .taskError r _ _ => r

def Outcome.isSuccess : Outcome → Bool
  | .taskResult _ _ _ => true
  | .taskError _ _ _ => false

/-- Model of `Scheduler.submit._done`: route to the success channel when no error was
captured, to the error channel otherwise. -/
def doneOutcome (request generation : Nat) (result : Option PyVal)
    (error : Option String) : Outcome :=
  match error with
  | none => .taskResult request generation (result.getD .pynone)
  | some e => .taskError request generation e

/-- Model of `Scheduler._CallableRunnable.run`: call the task body; on return hand the
value to `_done`, on any raised `BaseException` hand the exception to `_done`
instead of propagating it. -/
def CallableRunnable.run (request generation : Nat) (fn : TaskBody) : Outcome :=
  match fn with
  | .ok result => doneOutcome request generation (some result) none
  | .error e => doneOutcome request generation none (some e)

/-- Submit a list of (kind, generation, body) tasks and let the pool run each
submitted runnable exactly once, collecting the delivered Outcomes (one per
submitted task, in submission order; the pool may deliver them in any order,
which does not change the multiset of outcomes). -/
def Scheduler.scheduleAndRun (s : Scheduler) :
    List (TaskKind × Nat × TaskBody) → Scheduler × List Outcome
  | [] => (s, [])
  | (k, g, fn) :: rest =>
      let (tok, s') := s.submit k g
      let out := CallableRunnable.run tok.request tok.generation fn
      let (s'', outs) := s'.scheduleAndRun rest
      (s'', out :: outs)

-- Basic facts about the scheduler used by the claims.

theorem Scheduler.submitMany_tokens_request (s : Scheduler) (calls : List (TaskKind × Nat)) :
    (s.submitMany calls).1.map Token.request = List.range' s.nextId calls.length := by
  induction calls generalizing s with
  | nil => simp [Scheduler.submitMany]
  | cons hd tl ih =>
      obtain ⟨k, g⟩ := hd
      simp [Scheduler.submitMany, Scheduler.submit, List.range'_succ, ih]

theorem Scheduler.scheduleAndRun_requests (s : Scheduler) (tasks : List (TaskKind × Nat × TaskBody)) :
    (s.scheduleAndRun tasks).2.map Outcome.request = List.range' s.nextId tasks.length := by
  induction tasks generalizing s with
  | nil => simp [Scheduler.scheduleAndRun]
  | cons hd tl ih =>
      obtain ⟨k, g, fn⟩ := hd
      simp [Scheduler.scheduleAndRun, Scheduler.submit, CallableRunnable.run, List.range'_succ, ih]
      cases fn <;> simp [CallableRunnable.run, doneOutcome, Outcome.request]

theorem Scheduler.scheduleAndRun_length (s : Scheduler) (tasks : List (TaskKind × Nat × TaskBody)) :
    (s.scheduleAndRun tasks).2.length = tasks.length := by
  have h := Scheduler.scheduleAndRun_requests s tasks
  have := congrArg List.length h
  simpa using this

theorem Scheduler.scheduleAndRun_getElem (s : Scheduler)
    (tasks : List (TaskKind × Nat × TaskBody)) (i : Nat)
    (k : TaskKind) (g : Nat) (fn : TaskBody) (h : tasks[i]? = some (k, g, fn)) :
    (s.scheduleAndRun tasks).2[i]? =
      some (CallableRunnable.run (s.nextId + i) g fn) := by
  induction tasks generalizing s i with
  | nil => simp at h
  | cons hd tl ih =>
      obtain ⟨k', g', fn'⟩ := hd
      cases i with
      | zero =>
          simp only [List.getElem?_cons_zero, Option.some.injEq] at h
          cases h
          simp [Scheduler.scheduleAndRun, Scheduler.submit]
      | succ j =>
          simp only [List.getElem?_cons_succ] at h
          have := ih (s.submit k' g').2 j h
          simp only [Scheduler.scheduleAndRun, Scheduler.submit] at this ⊢
          rw [List.getElem?_cons_succ]
          rw [this]
          congr 2
          omega

/-- Claim C2: within one Scheduler lifetime, the request ids returned by any
sequence of `submit` calls are pairwise distinct and strictly increasing in
submission order. -/
theorem claim_c2_submit_ids_strictly_increasing (s : Scheduler) (calls : List (TaskKind × Nat)) :
    ((s.submitMany calls).1.map Token.request).Pairwise (· < ·) := by
  rw [Scheduler.submitMany_tokens_request]
  exact List.pairwise_lt_range' _ _

/-- Claim C3: for every submitted task exactly one Outcome is delivered —
a success Outcome exactly when the task body returns, a failure Outcome
exactly when it raises (the raise being caught inside the worker runnable and
converted, never propagated): the delivered outcome list has exactly one
outcome carrying task `i`'s request id, and that outcome is
success-with-the-returned-value when the body returned, and
failure-with-the-caught-error when the body raised. -/
theorem Outcome.filter_request_of_map_range' :
    ∀ (outs : List Outcome) (a n r : Nat),
      outs.map Outcome.request = List.range' a n →
      a ≤ r → r < a + n →
      (outs.filter (fun o => o.request = r)).length = 1 := by
  intro outs
  induction outs with
  | nil =>
      intro a n r hmap hle hlt
      have : n = 0 := by
        have := congrArg List.length hmap
        simpa using this.symm
      omega
  | cons o outs ih =>
      intro a n r hmap hle hlt
      cases n with
      | zero => simp at hmap
      | succ m =>
          rw [List.range'_succ] at hmap
          simp only [List.map_cons, List.cons.injEq] at hmap
          obtain ⟨hreq, hrest⟩ := hmap
          by_cases hr : o.request = r
          · have ha : a = r := by omega
            rw [List.filter_cons_of_pos (by simpa using hr)]
            have hz : (outs.filter (fun o => o.request = r)).length = 0 := by
              rw [List.length_eq_zero, List.filter_eq_nil_iff]
              intro x hx
              have hmem : x.request ∈ List.range' (a + 1) m := by
                rw [← hrest]
                exact List.mem_map_of_mem Outcome.request hx
              rw [List.mem_range'_1] at hmem
              simp only [decide_eq_true_eq]
              omega
            simp [hz]
          · have ha : a ≠ r := by rw [← hreq]; exact fun hc => hr hc
            rw [List.filter_cons_of_neg (by simpa using hr)]
            exact ih (a + 1) m r hrest (by omega) (by omega)

theorem claim_c3_exactly_one_outcome_per_task (s : Scheduler)
    (tasks : List (TaskKind × Nat × TaskBody)) (i : Nat)
    (k : TaskKind) (g : Nat) (fn : TaskBody) (hi : tasks[i]? = some (k, g, fn)) :
    (((s.scheduleAndRun tasks).2.filter
        (fun o => o.request = s.nextId + i)).length = 1)
    ∧ (∀ v, fn = .ok v →
        (s.scheduleAndRun tasks).2[i]? =
          some (.taskResult (s.nextId + i) g v))
    ∧ (∀ e, fn = .error e →
        (s.scheduleAndRun tasks).2[i]? =
          some (.taskError (s.nextId + i) g e)) := by
  have hlen : i < tasks.length := by
    by_contra hc
    rw [List.getElem?_eq_none (Nat.le_of_not_lt hc)] at hi
    exact Option.noConfusion hi
  refine ⟨?_, ?_, ?_⟩
  · exact Outcome.filter_request_of_map_range' _ s.nextId tasks.length (s.nextId + i)
      (Scheduler.scheduleAndRun_requests s tasks) (Nat.le_add_right _ _)
      (by omega)
  · intro v hv
    rw [Scheduler.scheduleAndRun_getElem s tasks i k g fn hi, hv]
    rfl
  · intro e he
    rw [Scheduler.scheduleAndRun_getElem s tasks i k g fn hi, he]
    rfl

/-- Witness for C3 at a concrete input: three tasks, the middle one raising;
its unique outcome is the failure outcome for request id 2. -/
theorem claim_c3_witness :
    (((Scheduler.init.scheduleAndRun
        [(.loginTask, 0, .ok (.pynone)), (.loadTask, 0, .error "boom"),
         (.saveTask, 0, .ok (.nonDict 7))]).2.filter
        (fun o => o.request = Scheduler.init.nextId + 1)).length = 1) :=
  (claim_c3_exactly_one_outcome_per_task Scheduler.init
    [(.loginTask, 0, .ok (.pynone)), (.loadTask, 0, .error "boom"),
     (.saveTask, 0, .ok (.nonDict 7))] 1 .loadTask 0 (.error "boom") rfl).1

-- ===========================================================================
-- The session workflow core: `src/app/session.py`, `src/app/workspace.py`,
-- `src/app/states.py`, `src/app/controller.py`.
-- ===========================================================================

/-- The metadata dict identifying one remote image item, as handed to
`SwitchingState`.  `image` is the image the workspace will hold after
`Workspace.load` on this item's `image_path` (`none`: the file is missing and
`load` leaves no image); `cachedEmbedding` is the on-disk embedding cache
next to the image, if present. -/
structure ItemMeta where
  projectId : Nat
  caseId : Nat
  imageId : Nat
  image : Option Nat
  cachedEmbedding : Option Nat
deriving DecidableEq, Repr

/-- Model of `app/session.py` `WorkspaceSession`. -/
structure WorkspaceSession where
  current_metadata : Option ItemMeta
  dirty : Bool
deriving DecidableEq, Repr

/-- Model of `app/workspace.py` `Workspace`, restricted to the fields the coordination
core reads; points/pipeline/polygons contents are opaque `Nat`s. -/
structure Workspace where
  image : Option Nat
  embedding : Option Nat
  points : Nat
  pipeline : Nat
  polygons : Nat
deriving DecidableEq, Repr

/-- Model of `Workspace.load`: clear everything, then set the image (and any cached
embedding) from the target's image path. -/
def Workspace.load (_w : Workspace) (m : ItemMeta) : Workspace :=
  { image := m.image, embedding := m.cachedEmbedding,
    points := 0, pipeline := 0, polygons := 0 }

/-- Model of `Workspace.load_from`: apply a fetched annotation payload; a no-op when no
image is loaded. -/
def Workspace.load_from (w : Workspace) (data : Nat) : Workspace :=
  match w.image with
  | none => w
  | some _ => { w with points := data, pipeline := data, polygons := data }

/-- The Qt signals observable from the Controller (`controller.py` Signal
declarations plus the state-machine emissions routed through it). -/
inductive Event
  | statusText (s : String)
  | freezeUi (b : Bool) (s : String)
  | progressSig (n : Int)
  | showError (s : String)
  | imageSelectedSig (w : Workspace)
  | entityStatusUpdated (projectId caseId imageId : Nat) (status : String)
  | workflowFinished (status : String)
  | segmentMask (rgba maskBin : Option Nat)
  | generatePolygon (imageRef polys : Option Nat)
  | polygonsGenerated
  | loginSuccess
  | loginFail (s : String)
deriving DecidableEq, Repr

def Event.isShowError : Event → Bool
  | .showError _ => true
  | _ => false

/-- Model of `SwitchingState.step` values: "INIT", "SAVE", "LOAD", "SEGMENT". -/
inductive SwitchStep
  | INIT
  | SAVE
  | LOAD
  | SEGMENT
deriving DecidableEq, Repr

/-- The active state object of the workflow state machine (`states.py`);
each workflow state owns its sub-step bookkeeping and sole outstanding
request id (`none` before the first submission). -/
inductive WState
  | annotating
  | switching (target : ItemMeta) (step : SwitchStep) (reqId : Option Nat)
  | submitting (targetStatus : String) (reqId : Option Nat)
deriving DecidableEq, Repr

/-- Model of `isinstance(self._state, AnnotatingState)` -/
def WState.isAnnotating : WState → Bool
  | .annotating => true
  | _ => false

/-- Model of `app/controller.py` `Controller`: scheduler, active state, session,
workspace, segmentation capability, the three background-request correlator
fields, the cached masks, and the single-shot debounce timer (modelled as the
absolute time at which it will fire, if armed). -/
structure Controller where
  sched : Scheduler
  state : WState
  session : WorkspaceSession
  workspace : Workspace
  segServiceAvailable : Bool
  bgSeg : Option Nat
  bgPoly : Option Nat
  bgLogin : Option Nat
  cachedMaskSam : Option Nat
  cachedMaskBinary : Option Nat
  timerDeadline : Option Nat
deriving DecidableEq, Repr

def DEBOUNCE_MS : Nat := 200

/-- Model of `self.ctx.scheduler.submit(fn = task, generation = 0)` from inside the
controller: thread the scheduler through and keep the returned request id. -/
def Controller.submitTask (c : Controller) (kind : TaskKind) (generation : Nat) :
    Nat × Controller :=
  let (tok, s') := c.sched.submit kind generation
  (tok.request, { c with sched := s' })

/-- Model of `WorkflowState._report_status`: status bar plus modal freeze message. -/
def reportStatus (msg : String) : List Event :=
  [.statusText msg, .freezeUi true msg]

/-- Model of `transition_to(AnnotatingState(self))`: exit the old state (a no-op in
every state class) and run `AnnotatingState.enter`. -/
def enterAnnotating (c : Controller) : Controller × List Event :=
  ({ c with state := .annotating },
   [.statusText "就绪", .freezeUi false "", .progressSig 100])

/-- Model of `SwitchingState._do_load`: report, load the target image synchronously
into the workspace, submit the background annotation fetch and record its
request id as the sole outstanding id. -/
def SwitchingState.doLoad (c : Controller) (target : ItemMeta) : Controller × List Event :=
  let evs := reportStatus "正在加载图像资源及元数据..."
  let c := { c with workspace := c.workspace.load target }
  let (req, c') := c.submitTask .loadTask 0
  ({ c' with state := .switching target .LOAD (some req) }, evs)

/-- Model of `SwitchingState._start_sequence`: enter the Save sub-step only when the
session is dirty and a current item exists, otherwise go straight to Load. -/
def SwitchingState.startSequence (c : Controller) (target : ItemMeta) : Controller × List Event :=
  match c.session.dirty, c.session.current_metadata with
  | true, some _ =>
      let evs := reportStatus "正在同步标注数据到服务器..."
      let (req, c') := c.submitTask .saveTask 0
      ({ c' with state := .switching target .SAVE (some req) }, evs)
  | _, _ => SwitchingState.doLoad c target

/-- Model of `SwitchingState._do_segment`: apply the fetched annotation payload, notify
the UI, then either skip to Annotating (no segmentation capability / no
image) or submit the embedding+segmentation task. -/
def SwitchingState.doSegment (c : Controller) (target : ItemMeta) (annotationsData : Nat) :
    Controller × List Event :=
  let evs := reportStatus "正在进行图像编码 (Embedding)..."
  let c := { c with workspace := c.workspace.load_from annotationsData }
  let evs := evs ++ [.imageSelectedSig c.workspace]
  if c.segServiceAvailable = false then
    let (c', evs') := enterAnnotating c
    (c', evs ++ evs')
  else
    match c.workspace.image with
    | none =>
        let (c', evs') := enterAnnotating c
        (c', evs ++ evs')
    | some _ =>
        let (req, c') := c.submitTask .segmentTask 0
        ({ c' with state := .switching target .SEGMENT (some req) }, evs)

/-- Model of `transition_to(SwitchingState(self, target_metadata = m))`:
`WorkflowState.enter` (freeze + indeterminate progress) then
`_start_sequence`. -/
def enterSwitching (c : Controller) (target : ItemMeta) : Controller × List Event :=
  let evs := reportStatus "准备切换案例..." ++ [.progressSig (-1)]
  let (c', evs') := SwitchingState.startSequence c target
  (c', evs ++ evs')

/-- Model of `SubmittingState.get_message`. -/
def SubmittingState.getMessage (targetStatus : String) : String :=
  let action := if targetStatus = "Submitted" then "提交" else "废弃"
  "正在" ++ action ++ "案例数据..."

/-- Model of `transition_to(SubmittingState(self, status))`: `WorkflowState.enter`
then submit the push task and record its request id. -/
def enterSubmitting (c : Controller) (targetStatus : String) : Controller × List Event :=
  let evs := reportStatus (SubmittingState.getMessage targetStatus) ++ [.progressSig (-1)]
  let (req, c') := c.submitTask .pushTask 0
  ({ c' with state := .submitting targetStatus (some req) }, evs)

/-- Model of `Controller.notify_status_update`: emit the entity update, and the
workflow-finished signal when the new status is terminal. -/
def Controller.notifyStatusUpdate (projectId caseId imageId : Nat) (status : String) :
    List Event :=
  [.entityStatusUpdated projectId caseId imageId status] ++
    (if status = "Submitted" ∨ status = "Skipped" then [.workflowFinished status] else [])

/-- Model of `WorkflowState.handle_error` (shared error path): surface the error and
transition back to Annotating — with no request-id check. -/
def WorkflowState.handleError (c : Controller) (error : String) : Controller × List Event :=
  let (c', evs) := enterAnnotating c
  (c', .showError error :: evs)

/-- Model of `Controller._handle_segment_image_result`. -/
def Controller.handleSegmentImageResult (c : Controller) (d : DictVal) :
    Controller × List Event :=
  let c := { c with cachedMaskSam := d.mask_sam, cachedMaskBinary := d.mask_binary }
  let c :=
    match d.embedding with
    | some e => { c with workspace := { c.workspace with embedding := some e } }
    | none => c
  let evs := [Event.segmentMask d.rgba_mask d.mask_binary]
  match d.polygons with
  | some p =>
      ({ c with workspace := { c.workspace with polygons := p } },
       evs ++ [Event.generatePolygon d.image_ref (some p)])
  | none => (c, evs)

/-- Model of `Controller._handle_segment_common_result` (key presence of
`"mask_binary" in result` is modelled as the field being set). -/
def Controller.handleSegmentCommonResult (c : Controller) (d : DictVal) :
    Controller × List Event :=
  let c :=
    match d.mask_sam with
    | some ms => { c with cachedMaskSam := some ms }
    | none => c
  let c :=
    match d.mask_binary with
    | some _ => { c with cachedMaskBinary := d.mask_binary }
    | none => c
  let evs := [Event.segmentMask d.rgba_mask d.mask_binary]
  let p := d.polygons.getD 0
  ({ c with workspace := { c.workspace with polygons := p } },
   evs ++ [Event.generatePolygon d.image_ref (some p)])

/-- Model of `Controller._handle_manual_polygon_result` (generating polygons marks the
session dirty). -/
def Controller.handleManualPolygonResult (c : Controller) (d : DictVal) :
    Controller × List Event :=
  let evs := [Event.generatePolygon d.image_ref d.polygons]
  let c :=
    match d.polygons with
    | some p =>
        { c with workspace := { c.workspace with polygons := p },
                 session := { c.session with dirty := true } }
    | none => c
  (c, evs ++ [.statusText "轮廓生成完成", .freezeUi false "", .polygonsGenerated])

/-- Another Outcome processor may raise partway through; the error side then
carries the mutations and emissions already performed plus the rendered
exception message. -/
def HandlerResult := Except (Controller × List Event × String) (Controller × List Event)

/-- Model of `SwitchingState.handle_result`: drop any result whose request id differs
from the sole outstanding id, otherwise advance the Save → Load → Segment
chain.  `result["data"]["annotations"]` in the Load step and
`result.get(...)` in the Segment step can raise on a malformed payload. -/
def SwitchingState.handleResult (c : Controller) (target : ItemMeta) (step : SwitchStep)
    (reqId : Option Nat) (requestId : Nat) (result : PyVal) : HandlerResult :=
  if some requestId ≠ reqId then .ok (c, [])
  else
    match step with
    | .SAVE =>
        let evs :=
          match c.session.current_metadata with
          | some m => Controller.notifyStatusUpdate m.projectId m.caseId m.imageId "Annotating"
          | none => []
        let c := { c with session := { c.session with dirty := false } }
        let (c', evs') := SwitchingState.doLoad c target
        .ok (c', evs ++ evs')
    | .LOAD =>
        let c := { c with session := { c.session with current_metadata := some target } }
        match result with
        | .pdict d =>
            match d.data_annotations with
            | some a =>
                let (c', evs') := SwitchingState.doSegment c target a
                .ok (c', evs')
            | none => .error (c, [], "KeyError: data.annotations")
        | _ => .error (c, [], "TypeError: result is not subscriptable")
    | .SEGMENT =>
        match result with
        | .pdict d =>
            let (c1, evs1) := Controller.handleSegmentImageResult c d
            let c2 := { c1 with session := { c1.session with dirty := false } }
            let (c3, evs3) := enterAnnotating c2
            .ok (c3, evs1 ++ evs3)
        | _ => .error (c, [], "AttributeError: result.get")
    | .INIT => .ok (c, [])

/-- Model of `SubmittingState.handle_result`: drop mismatched ids, otherwise notify the
status change, clear dirty, return to Annotating. -/
def SubmittingState.handleResult (c : Controller) (targetStatus : String)
    (reqId : Option Nat) (requestId : Nat) (_result : PyVal) : Controller × List Event :=
  if some requestId ≠ reqId then (c, [])
  else
    let evs :=
      match c.session.current_metadata with
      | some m => Controller.notifyStatusUpdate m.projectId m.caseId m.imageId targetStatus
      | none => []
    let c := { c with session := { c.session with dirty := false } }
    let (c', evs') := enterAnnotating c
    (c', evs ++ evs')

/-- Model of `self._state.handle_result(request_id, result)`: dispatch on the active
state object (the base `State.handle_result` of `AnnotatingState` is a
no-op). -/
def Controller.stateHandleResult (c : Controller) (requestId : Nat) (result : PyVal) :
    HandlerResult :=
  match c.state with
  | .annotating => .ok (c, [])
  | .switching target step reqId =>
      SwitchingState.handleResult c target step reqId requestId result
  | .submitting st reqId => .ok (SubmittingState.handleResult c st reqId requestId result)

/-- Model of `self._state.handle_error(request_id, error)`: the base handler of
`AnnotatingState` ignores it; both workflow states run the shared error path
regardless of the request id. -/
def Controller.stateHandleError (c : Controller) (_requestId : Nat) (error : String) :
    Controller × List Event :=
  match c.state with
  | .annotating => (c, [])
  | .switching _ _ _ => WorkflowState.handleError c error
  | .submitting _ _ => WorkflowState.handleError c error

/-- The tail of `Controller._on_task_result` after the state dispatch: the
two background-correlator checks (`_bg_seg_req`, then `_bg_poly_req`), each
handling the result only when its stored id matches and the result is a
dict. -/
def Controller.bgCorrelatorStage (c1 : Controller) (requestId : Nat)
    (result : PyVal) : Controller × List Event :=
  let (c2, evs2) :=
    if c1.bgSeg = some requestId then
      match result with
      | .pdict d => Controller.handleSegmentCommonResult c1 d
      | _ => (c1, [])
    else (c1, [])
  let (c3, evs3) :=
    if c2.bgPoly = some requestId then
      match result with
      | .pdict d => Controller.handleManualPolygonResult c2 d
      | _ => (c2, [])
    else (c2, [])
  (c3, evs2 ++ evs3)

/-- The body of `Controller._on_task_result` (inside the `try`): the login
branch returns early; otherwise the active state handles the result, then the
background segmentation/polygon correlators check their own ids. -/
def Controller.onTaskResultBody (c : Controller) (requestId _generation : Nat)
    (result : PyVal) : HandlerResult :=
  if c.bgLogin = some requestId then
    match result with
    | .pdict d =>
        match d.user_pwd with
        | some _ => .ok (c, [.loginSuccess])
        | none => .error (c, [], "KeyError: user")
    | _ => .error (c, [], "TypeError: creds is not subscriptable")
  else
    match c.stateHandleResult requestId result with
    | .error e => .error e
    | .ok (c1, evs1) =>
        let (c3, evs23) := Controller.bgCorrelatorStage c1 requestId result
        .ok (c3, evs1 ++ evs23)

/-- The `except Exception` recovery shared by `_on_task_result` and
`_on_task_error`: surface an internal error; if the active state is not
Annotating force a transition to Annotating, otherwise just unfreeze the
UI. -/
def Controller.recoverFromHandlerException (c1 : Controller) (evs : List Event)
    (msg : String) : Controller × List Event :=
  let errEv := Event.showError ("Internal System Error: " ++ msg)
  if c1.state.isAnnotating then (c1, evs ++ [errEv, .freezeUi false ""])
  else
    let (c2, evs2) := enterAnnotating c1
    (c2, evs ++ [errEv] ++ evs2)

/-- Model of `Controller._on_task_result` with its top-level `try`/`except`. -/
def Controller.onTaskResult (c : Controller) (requestId generation : Nat)
    (result : PyVal) : Controller × List Event :=
  match c.onTaskResultBody requestId generation result with
  | .ok (c', evs) => (c', evs)
  | .error (c1, evs, msg) => Controller.recoverFromHandlerException c1 evs msg

/-- Model of `"401" in msg` etc., via `splitOn`: a needle occurs in the haystack iff
splitting on it yields more than one piece. -/
def strContains (s sub : String) : Bool := (s.splitOn sub).length ≥ 2

/-- The message classification in the login branch of
`Controller._on_task_error`. -/
def Controller.loginFailMessage (err : String) : String :=
  if strContains err "401" ∨ strContains err "403" then "用户名或密码错误"
  else if strContains err "Connection" then "连接服务器失败"
  else err

/-- The body of `Controller._on_task_error` (inside the `try`). -/
def Controller.onTaskErrorBody (c : Controller) (requestId _generation : Nat)
    (err : String) : HandlerResult :=
  if c.bgLogin = some requestId then
    .ok (c, [.loginFail (Controller.loginFailMessage err)])
  else
    let (c1, evs1) := c.stateHandleError requestId err
    let (c2, evs2) :=
      if c1.bgSeg = some requestId ∨ c1.bgPoly = some requestId then
        let evsPoly := if c1.bgPoly = some requestId then [Event.freezeUi false ""] else []
        (c1, evsPoly ++ [.statusText "操作失败", .showError err])
      else (c1, [])
    .ok (c2, evs1 ++ evs2)

/-- Model of `Controller._on_task_error` with its top-level `try`/`except`. -/
def Controller.onTaskError (c : Controller) (requestId generation : Nat)
    (err : String) : Controller × List Event :=
  match c.onTaskErrorBody requestId generation err with
  | .ok (c', evs) => (c', evs)
  | .error (c1, evs, msg) => Controller.recoverFromHandlerException c1 evs msg

/-- Model of `Controller.on_image_selected` → `self._state.on_image_selected(m)`:
Annotating transitions to Switching; the workflow states only report that the
system is busy. -/
def Controller.onImageSelected (c : Controller) (metadata : ItemMeta) :
    Controller × List Event :=
  match c.state with
  | .annotating => enterSwitching c metadata
  | .switching _ _ _ => (c, [.statusText "系统繁忙，请稍候..."])
  | .submitting _ _ => (c, [.statusText "系统繁忙，请稍候..."])

/-- Model of `Controller.on_submit_current` → `AnnotatingState.on_submit`: transition
to Submitting("Submitted") only when a current item exists; all other states
log and ignore the intent. -/
def Controller.onSubmitCurrent (c : Controller) : Controller × List Event :=
  match c.state with
  | .annotating =>
      match c.session.current_metadata with
      | some _ => enterSubmitting c "Submitted"
      | none => (c, [])
  | _ => (c, [])

/-- Model of `Controller.on_abolish_current` → `AnnotatingState.on_abolish`. -/
def Controller.onAbolishCurrent (c : Controller) : Controller × List Event :=
  match c.state with
  | .annotating =>
      match c.session.current_metadata with
      | some _ => enterSubmitting c "Skipped"
      | none => (c, [])
  | _ => (c, [])

/-- Model of `Controller.on_update_points`: mark dirty, store the points and (re)arm
the single-shot debounce timer (`now` is the coordinating-thread time at
which the edit arrives). -/
def Controller.onUpdatePoints (c : Controller) (points now : Nat) :
    Controller × List Event :=
  ({ c with session := { c.session with dirty := true },
            workspace := { c.workspace with points := points },
            timerDeadline := some (now + DEBOUNCE_MS) }, [])

/-- Model of `Controller._run_pipeline_segmentation`: guarded immediate submission of
a pipeline re-segmentation. -/
def Controller.runPipelineSegmentation (c : Controller) : Controller × List Event :=
  if c.segServiceAvailable = false then (c, [])
  else
    match c.workspace.image with
    | none => (c, [])
    | some _ =>
        let (req, c') := c.submitTask .pipelineSegTask 0
        ({ c' with bgSeg := some req }, [])

/-- Model of `Controller.on_update_pipeline`: mark dirty; re-segment immediately (no
debounce) when an image and a cached SAM mask exist. -/
def Controller.onUpdatePipeline (c : Controller) : Controller × List Event :=
  let c := { c with session := { c.session with dirty := true } }
  match c.workspace.image, c.cachedMaskSam with
  | some _, some _ => Controller.runPipelineSegmentation c
  | _, _ => (c, [])

/-- Model of `Controller.on_update_polygons`. -/
def Controller.onUpdatePolygons (c : Controller) (imageRef : Option Nat) (polygons : Nat) :
    Controller × List Event :=
  ({ c with session := { c.session with dirty := true },
            workspace := { c.workspace with polygons := polygons } },
   [.generatePolygon imageRef (some polygons)])

/-- Model of `Controller.on_update_polygons_from_canvas`. -/
def Controller.onUpdatePolygonsFromCanvas (c : Controller) (polygons : Nat) :
    Controller × List Event :=
  ({ c with session := { c.session with dirty := true },
            workspace := { c.workspace with polygons := polygons } }, [])

/-- Model of `Controller.on_action_generate_polygons`. -/
def Controller.onActionGeneratePolygons (c : Controller) : Controller × List Event :=
  if c.segServiceAvailable = false then (c, [])
  else
    match c.cachedMaskBinary with
    | none => (c, [.statusText "无法生成：当前无有效 Mask"])
    | some _ =>
        match c.workspace.image with
        | none => (c, [.statusText "未加载图像"])
        | some _ =>
            let evs := [Event.freezeUi true "正在执行轮廓提取与简化 (DP算法)...",
                        Event.statusText "正在生成轮廓..."]
            let (req, c') := c.submitTask .polygonTask 0
            ({ c' with bgPoly := some req }, evs)

/-- Model of `Controller.request_login`: submit the login task and remember its id. -/
def Controller.requestLogin (c : Controller) : Controller × List Event :=
  let (req, c') := c.submitTask .loginTask 0
  ({ c' with bgLogin := some req }, [])

/-- Model of `Controller._on_debounce_timeout`: submit the debounced point
segmentation only when a capability exists, the state machine is idle in
Annotating and an image is loaded. -/
def Controller.onDebounceTimeout (c : Controller) : Controller × List Event :=
  if c.segServiceAvailable = false then (c, [])
  else if c.state.isAnnotating = false then (c, [])
  else
    match c.workspace.image with
    | none => (c, [])
    | some _ =>
        let (req, c') := c.submitTask .debounceSegTask 0
        ({ c' with bgSeg := some req }, [])

/-- All inputs the coordinating thread can feed the Controller: UI intents,
the debounce timer firing, and Outcome deliveries from the scheduler. -/
inductive Intent
  | imageSelectedIntent (metadata : ItemMeta)
  | submitIntent
  | abolishIntent
  | updatePoints (points now : Nat)
  | updatePipeline
  | updatePolygons (imageRef : Option Nat) (polygons : Nat)
  | updatePolygonsFromCanvas (polygons : Nat)
  | actionGeneratePolygons
  | loginIntent
  | debounceTimeout
  | deliverResult (requestId generation : Nat) (result : PyVal)
  | deliverError (requestId generation : Nat) (err : String)
deriving DecidableEq, Repr

/-- One step of the single-threaded coordinating loop. -/
def Controller.step (c : Controller) : Intent → Controller × List Event
  | .imageSelectedIntent m => c.onImageSelected m
  | .submitIntent => c.onSubmitCurrent
  | .abolishIntent => c.onAbolishCurrent
  | .updatePoints p t => c.onUpdatePoints p t
  | .updatePipeline => c.onUpdatePipeline
  | .updatePolygons i p => c.onUpdatePolygons i p
  | .updatePolygonsFromCanvas p => c.onUpdatePolygonsFromCanvas p
  | .actionGeneratePolygons => c.onActionGeneratePolygons
  | .loginIntent => c.requestLogin
  | .debounceTimeout => c.onDebounceTimeout
  | .deliverResult r g v => c.onTaskResult r g v
  | .deliverError r g e => c.onTaskError r g e

/-- The controller as built by `Controller.__init__` (the initial
`AnnotatingState` is installed without running `enter`). -/
def Controller.init (segServiceAvailable : Bool) : Controller :=
  { sched := Scheduler.init, state := .annotating,
    session := { current_metadata := none, dirty := false },
    workspace := { image := none, embedding := none, points := 0, pipeline := 0, polygons := 0 },
    segServiceAvailable := segServiceAvailable,
    bgSeg := none, bgPoly := none, bgLogin := none,
    cachedMaskSam := none, cachedMaskBinary := none, timerDeadline := none }

/-- Single-shot `QTimer` semantics: when the coordinating thread regains
control at time `now` and the armed deadline has passed, the timeout slot
runs first (and the timer disarms). -/
def Controller.fireTimerIfDue (c : Controller) (now : Nat) : Controller :=
  match c.timerDeadline with
  | some d => if d ≤ now then ({ c with timerDeadline := none }.onDebounceTimeout).1 else c
  | none => c

/-- Run a timestamped event trace (times non-decreasing), firing the debounce
timer whenever it is due. -/
def Controller.runTimed (c : Controller) : List (Nat × Intent) → Controller
  | [] => c
  | (t, i) :: rest => (((c.fireTimerIfDue t).step i).1).runTimed rest

/-- Let the armed timer (if any) fire once the trace has gone quiet. -/
def Controller.flushTimer (c : Controller) : Controller :=
  match c.timerDeadline with
  | some _ => ({ c with timerDeadline := none }.onDebounceTimeout).1
  | none => c

-- ===========================================================================
-- The resource browser: `src/app/explorer_controller.py` and
-- `src/ui/explorer.py` (the request-correlation and navigation logic; the
-- QListWidget diff rendering is modelled by its net effect on the list of
-- displayed items, and per-widget thumbnail bookkeeping is not modelled).
-- ===========================================================================

/-- Model of `ExplorerController`: the map-form correlator `request_id -> (type,
context)` over a scheduler. -/
structure ExplorerController where
  sched : Scheduler
  reqMap : List (Nat × String × List (String × Option Nat))
deriving DecidableEq, Repr

/-- The signals `ExplorerController` emits back to the view. -/
inductive EEvent
  | fileListLoaded (reqType : String) (response : PyVal)
      (requestContext : List (String × Option Nat))
  | fileListError (msg : String)
  | thumbnailReady (imageId : Option (Option Nat)) (localPath : PyVal)
  | thumbnailError (msg : String)
deriving DecidableEq, Repr

def ExplorerController.lookupReq (m : List (Nat × String × List (String × Option Nat)))
    (r : Nat) : Option (String × List (String × Option Nat)) :=
  match m with
  | [] => none
  | (r', ty, ctxt) :: rest =>
      if r' = r then some (ty, ctxt) else ExplorerController.lookupReq rest r

def ExplorerController.removeReq (m : List (Nat × String × List (String × Option Nat)))
    (r : Nat) : List (Nat × String × List (String × Option Nat)) :=
  m.filter (fun en => en.1 ≠ r)

/-- Model of `ExplorerController.fetch_list`: submit the list task and record the
request context under the fresh id. -/
def ExplorerController.fetchList (c : ExplorerController) (level : String)
    (params : List (String × Option Nat)) : ExplorerController × List EEvent :=
  let (tok, s') := c.sched.submit .listTask 0
  ({ sched := s', reqMap := c.reqMap ++ [(tok.request, level, params)] }, [])

/-- Model of `ExplorerController.download_thumbnail`. -/
def ExplorerController.downloadThumbnail (c : ExplorerController) (imageId : Nat) :
    ExplorerController × List EEvent :=
  let (tok, s') := c.sched.submit .downloadTask 0
  ({ sched := s',
     reqMap := c.reqMap ++ [(tok.request, "download", [("image_id", some imageId)])] },
   [])

/-- Model of `ExplorerController._on_task_result`: unknown or stale ids are silently
ignored; known ids are popped and routed by request type. -/
def ExplorerController.onTaskResult (c : ExplorerController)
    (requestId _generation : Nat) (result : PyVal) : ExplorerController × List EEvent :=
  match ExplorerController.lookupReq c.reqMap requestId with
  | none => (c, [])
  | some (reqType, context) =>
      let c := { c with reqMap := ExplorerController.removeReq c.reqMap requestId }
      if reqType = "download" then
        (c, [.thumbnailReady (context.lookup "image_id") result])
      else
        (c, [.fileListLoaded reqType result context])

/-- Model of `ExplorerController._on_task_error`. -/
def ExplorerController.onTaskError (c : ExplorerController)
    (requestId _generation : Nat) (err : String) : ExplorerController × List EEvent :=
  match ExplorerController.lookupReq c.reqMap requestId with
  | none => (c, [])
  | some (reqType, _context) =>
      let c := { c with reqMap := ExplorerController.removeReq c.reqMap requestId }
      if reqType = "download" then (c, [.thumbnailError err])
      else (c, [.fileListError err])

/-- One row of a list response (`project`/`case`/`image` entry dict, reduced
to the fields the browser logic reads). -/
structure Entry where
  id : Nat
  name : String
  attachment : String
deriving DecidableEq, Repr

/-- A decoded list response: `response.get("code", 0)`, `.get("msg")`,
`.get("data", dict()).get("items", [])`. -/
structure ListResponse where
  code : Nat
  msg : String
  items : List Entry
deriving DecidableEq, Repr

/-- What one row of the QListWidget shows. -/
inductive ViewItem
  | entryItem (en : Entry)
  | textItem (s : String)
deriving DecidableEq, Repr

/-- One saved navigation frame of `history_stack`. -/
structure Frame where
  level : String
  params : List (String × Option Nat)
  title : String
  projectId : Option Nat
  caseId : Option Nat
  caseName : String
deriving DecidableEq, Repr

/-- The request-parameter dict sent with a fetch and echoed back with its
response; `reqSeq` is the `"_req_seq"` entry. -/
structure ReqParams where
  params : List (String × Option Nat)
  reqSeq : Option Nat
deriving DecidableEq, Repr

/-- Model of `ui/explorer.py` `Explorer` (its coordination state; widgets are
represented by `viewItems`/`title`). -/
structure Explorer where
  historyStack : List Frame
  currentLevel : String
  currentParams : List (String × Option Nat)
  title : String
  currentProjectId : Option Nat
  currentCaseId : Option Nat
  currentCaseName : String
  reqSequence : Nat
  queryPending : Bool
  queryAnnotating : Bool
  querySubmitted : Bool
  querySkipped : Bool
  autoMode : Bool
  isSearching : Bool
  autoSkipIds : List Nat
  viewItems : List ViewItem
  baseCacheDir : String
deriving DecidableEq, Repr

/-- Effects the view sends outward: the `fetch_requested`,
`download_requested` and `image_selected` signals. -/
inductive EEffect
  | fetchRequested (level : String) (requestParams : ReqParams) (filters : List String)
  | downloadRequested (imageId : Nat) (path : String)
  | imageChosen (entryId : Nat) (path : String) (projectId caseId : Option Nat)
      (caseName : String)
deriving DecidableEq, Repr

/-- Model of `str(...)` on an id that may be the empty-string sentinel. -/
def optIdStr : Option Nat → String
  | none => ""
  | some n => toString n

/-- Model of `os.path.join(base_cache_dir, str(project_id), str(case_name), name)`. -/
def Explorer.localPathFor (e : Explorer) (fileName : String) : String :=
  e.baseCacheDir ++ "/" ++ optIdStr e.currentProjectId ++ "/" ++ e.currentCaseName
    ++ "/" ++ fileName

/-- Model of `title[:15] + "..." + title[-6:]`. -/
def truncTitle (t : String) : String := t.take 15 ++ "..." ++ t.takeRight 6

def Explorer.resetList (e : Explorer) : Explorer := { e with viewItems := [] }

/-- Model of `Explorer.execute_request`: bump the sequence number, embed it in the
request parameters, compute the status filters and emit `fetch_requested`. -/
def Explorer.executeRequest (e : Explorer) : Explorer × List EEffect :=
  let seq := e.reqSequence + 1
  let rp : ReqParams := { params := e.currentParams, reqSeq := some seq }
  let filters :=
    if e.isSearching then ["Pending", "Annotating"]
    else
      (if e.queryPending then ["Pending"] else []) ++
      (if e.queryAnnotating then ["Annotating"] else []) ++
      (if e.querySubmitted then ["Submitted"] else []) ++
      (if e.querySkipped then ["Skipped"] else [])
  ({ e with reqSequence := seq }, [.fetchRequested e.currentLevel rp filters])

/-- Model of `Explorer.navigate_to`. -/
def Explorer.navigateTo (e : Explorer) (level : String)
    (params : List (String × Option Nat)) (title : String) : Explorer × List EEffect :=
  let e :=
    if e.currentLevel ≠ "root" then
      { e with historyStack := e.historyStack ++
          [{ level := e.currentLevel, params := e.currentParams, title := e.title,
             projectId := e.currentProjectId, caseId := e.currentCaseId,
             caseName := e.currentCaseName }] }
    else e
  let e := { e with currentLevel := level, currentParams := params, title := title }
  (Explorer.resetList e).executeRequest

/-- Model of `Explorer.on_back`: in auto-search mode remember the dead-end child id,
then pop the previous frame and re-request its list. -/
def Explorer.onBack (e : Explorer) : Explorer × List EEffect :=
  match e.historyStack.getLast? with
  | none => (e, [])
  | some prev =>
      let e :=
        if e.isSearching then
          if e.currentLevel = "image" then
            match e.currentCaseId with
            | some cid => { e with autoSkipIds := e.autoSkipIds ++ [cid] }
            | none => e
          else if e.currentLevel = "case" then
            match e.currentProjectId with
            | some pid => { e with autoSkipIds := e.autoSkipIds ++ [pid] }
            | none => e
          else e
        else e
      let e := { e with historyStack := e.historyStack.dropLast,
                        currentLevel := prev.level, currentParams := prev.params,
                        currentProjectId := prev.projectId, currentCaseId := prev.caseId,
                        currentCaseName := prev.caseName, title := prev.title }
      (Explorer.resetList e).executeRequest

/-- Model of `Explorer.try_auto_load`. -/
def Explorer.tryAutoLoad (e : Explorer) : Explorer × List EEffect :=
  if e.autoMode = false then (e, [])
  else
    let e := { e with isSearching := true, title := "正在查找任务..." }
    e.executeRequest

/-- Model of `Explorer._handle_auto_load_logic`: skip known dead ends; with no valid
rows back up (or end the search at the root); otherwise descend into the
first row, or select it when it is an image. -/
def Explorer.handleAutoLoadLogic (fileExists : String → Bool) (e : Explorer)
    (reqType : String) (items : List Entry) : Explorer × List EEffect :=
  let validItems := items.filter (fun it => ! e.autoSkipIds.contains it.id)
  match validItems with
  | [] =>
      if e.historyStack.isEmpty then
        let e := { e with isSearching := false, title := "当前无待办任务" }
        let e := Explorer.resetList e
        ({ e with viewItems := [ViewItem.textItem "当前无待办任务"] }, [])
      else e.onBack
  | target :: _ =>
      if reqType = "image" then
        let e := { e with isSearching := false, title := e.currentCaseName }
        let localPath := e.localPathFor target.name
        let evs :=
          if fileExists localPath then []
          else [EEffect.downloadRequested target.id localPath]
        let evs := evs ++ [EEffect.imageChosen target.id localPath
          e.currentProjectId e.currentCaseId e.currentCaseName]
        let (e', evs') := e.executeRequest
        (e', evs ++ evs')
      else if reqType = "case" then
        let e := { e with currentCaseId := some target.id,
                          currentCaseName := target.attachment }
        e.navigateTo "image"
          [("project_id", e.currentProjectId), ("case_id", some target.id)]
          (truncTitle e.currentCaseName)
      else if reqType = "project" then
        let e := { e with currentProjectId := some target.id, currentCaseId := none,
                          currentCaseName := "" }
        e.navigateTo "case" [("project_id", some target.id)] target.name
      else (e, [])

/-- Model of `Explorer.on_data_loaded`: honour a response only when its request type
matches the current level and its echoed `"_req_seq"` equals the latest
issued sequence number; then render errors, run the auto-search logic, or
display the rows (the diff update's net effect: the list shows exactly the
response's rows, in order; uncached image rows trigger a thumbnail
download). -/
def Explorer.onDataLoaded (fileExists : String → Bool) (e : Explorer) (reqType : String)
    (response : ListResponse) (requestParams : ReqParams) : Explorer × List EEffect :=
  if reqType ≠ e.currentLevel then (e, [])
  else
    let respSeq : Int := (requestParams.reqSeq.map Int.ofNat).getD (-1)
    if respSeq ≠ (e.reqSequence : Int) then (e, [])
    else
      if response.code ≠ 200 then
        let e :=
          if e.isSearching then
            { e with title := "自动加载出错: " ++ response.msg, isSearching := false }
          else e
        ({ e with viewItems := [ViewItem.textItem ("Error: " ++ response.msg)] }, [])
      else
        if e.isSearching then Explorer.handleAutoLoadLogic fileExists e reqType response.items
        else
          match response.items with
          | [] => ({ e with viewItems := [ViewItem.textItem "暂无数据"] }, [])
          | items =>
              let evs :=
                if reqType = "image" then
                  items.filterMap (fun it =>
                    let p := e.localPathFor it.name
                    if fileExists p then none
                    else some (EEffect.downloadRequested it.id p))
                else []
              ({ e with viewItems := items.map ViewItem.entryItem }, evs)


-- ===========================================================================
-- Claims about the workflow state machine.
-- ===========================================================================

theorem WState.isAnnotating_eq_true {s : WState} (h : s.isAnnotating = true) :
    s = .annotating := by
  cases s <;> simp [WState.isAnnotating] at h ⊢

def sampleMeta : ItemMeta :=
  { projectId := 1, caseId := 2, imageId := 3, image := some 10, cachedEmbedding := none }

/-- A concrete controller sitting in the Save sub-step of Switching with
outstanding request id 5, item loaded and dirty. -/
def cSwitchSave5 : Controller :=
  { sched := { nextId := 6, log := [] },
    state := .switching sampleMeta .SAVE (some 5),
    session := { current_metadata := some sampleMeta, dirty := true },
    workspace := { image := some 10, embedding := none, points := 0, pipeline := 0,
                   polygons := 0 },
    segServiceAvailable := true, bgSeg := none, bgPoly := none, bgLogin := none,
    cachedMaskSam := none, cachedMaskBinary := none, timerDeadline := none }

/-- Claim C1 counterexample: a Switching state holding outstanding request id
5 receives a failure Outcome for request id 6; contrary to the claim the
Outcome is not ignored — the state transitions to Annotating and fires the
user-visible error observer (`WorkflowState.handle_error` never checks the
request id). -/
theorem claim_c1_counterexample :
    cSwitchSave5.state = WState.switching sampleMeta .SAVE (some 5)
    ∧ (cSwitchSave5.onTaskError 6 0 "network down").1.state = WState.annotating
    ∧ (cSwitchSave5.onTaskError 6 0 "network down").2.countP Event.isShowError = 1 := by
  decide

/-- Claim C1 (amended): a success Outcome whose request id differs from the
workflow state's outstanding id is ignored — no sub-step advance, no
transition, no observer, session untouched; a failure Outcome however is not
id-filtered: whatever its request id, the shared error path fires the error
observer once and transitions back to Annotating (still leaving Session
unchanged). -/
theorem claim_c1_amended_mismatch_handling (c : Controller) (r r' : Nat) (v : PyVal)
    (err : String) (hmis : r' ≠ r) :
    (∀ m step, c.state = .switching m step (some r) →
        c.stateHandleResult r' v = .ok (c, []))
    ∧ (∀ st, c.state = .submitting st (some r) →
        c.stateHandleResult r' v = .ok (c, []))
    ∧ (∀ m step rid, c.state = .switching m step rid →
        c.stateHandleError r' err =
          ({ c with state := .annotating },
           [.showError err, .statusText "就绪", .freezeUi false "", .progressSig 100]))
    ∧ (∀ st rid, c.state = .submitting st rid →
        c.stateHandleError r' err =
          ({ c with state := .annotating },
           [.showError err, .statusText "就绪", .freezeUi false "", .progressSig 100])) := by
  refine ⟨?_, ?_, ?_, ?_⟩
  · intro m step hs
    simp [Controller.stateHandleResult, hs, SwitchingState.handleResult, hmis]
  · intro st hs
    simp [Controller.stateHandleResult, hs, SubmittingState.handleResult, hmis]
  · intro m step rid hs
    simp [Controller.stateHandleError, hs, WorkflowState.handleError, enterAnnotating]
  · intro st rid hs
    simp [Controller.stateHandleError, hs, WorkflowState.handleError, enterAnnotating]

/-- Witness for the amended C1: the Switching state with outstanding id 5
ignores a success Outcome for id 6. -/
theorem claim_c1_amended_witness :
    cSwitchSave5.stateHandleResult 6 .pynone = .ok (cSwitchSave5, []) :=
  (claim_c1_amended_mismatch_handling cSwitchSave5 5 6 .pynone "e" (by decide)).1
    sampleMeta .SAVE (by decide)

/-- Claim C5: any task failure handled inside Switching or Submitting (here:
any failure Outcome delivered for the state's outstanding request through the
full `_on_task_error` dispatch, `r` not being the login request) returns the
workflow to Annotating with the session — `dirty` and `current_metadata` —
the workspace, and the scheduler (hence: no Load or Segment task is ever
submitted by the failure path) unchanged. -/
theorem claim_c5_failure_preserves_session (c : Controller) (r g : Nat) (err : String)
    (hlogin : c.bgLogin ≠ some r)
    (hstate : (∃ m step, c.state = .switching m step (some r)) ∨
              (∃ st, c.state = .submitting st (some r))) :
    (c.onTaskError r g err).1.state = .annotating
    ∧ (c.onTaskError r g err).1.session = c.session
    ∧ (c.onTaskError r g err).1.sched = c.sched
    ∧ (c.onTaskError r g err).1.workspace = c.workspace := by
  rcases hstate with ⟨m, step, hs⟩ | ⟨st, hs⟩ <;>
    by_cases hb : c.bgSeg = some r ∨ c.bgPoly = some r <;>
    by_cases hp : c.bgPoly = some r <;>
    simp [Controller.onTaskError, Controller.onTaskErrorBody, Controller.stateHandleError,
      hs, WorkflowState.handleError, enterAnnotating, hlogin, hb, hp] <;>
    split <;> simp

/-- Witness for C5: the concrete Save sub-step failure — the item stays
current, the session stays dirty, no further task is submitted. -/
theorem claim_c5_witness :
    (cSwitchSave5.onTaskError 5 0 "save failed").1.state = .annotating
    ∧ (cSwitchSave5.onTaskError 5 0 "save failed").1.session = cSwitchSave5.session
    ∧ (cSwitchSave5.onTaskError 5 0 "save failed").1.sched = cSwitchSave5.sched
    ∧ (cSwitchSave5.onTaskError 5 0 "save failed").1.workspace = cSwitchSave5.workspace :=
  claim_c5_failure_preserves_session cSwitchSave5 5 0 "save failed" (by decide)
    (Or.inl ⟨sampleMeta, .SAVE, by decide⟩)

/-- Claim C6: a failure Outcome for the workflow state's own outstanding
request (which, by C2's id uniqueness, is distinct from the background
segmentation, polygon and login request ids — taken here as hypotheses) ends
in Annotating with the user-visible error observer fired exactly once. -/
theorem claim_c6_substep_failure_error_once (c : Controller) (r g : Nat) (err : String)
    (hlogin : c.bgLogin ≠ some r) (hseg : c.bgSeg ≠ some r) (hpoly : c.bgPoly ≠ some r)
    (hstate : (∃ m step, c.state = .switching m step (some r)) ∨
              (∃ st, c.state = .submitting st (some r))) :
    (c.onTaskError r g err).1.state = .annotating
    ∧ (c.onTaskError r g err).2.countP Event.isShowError = 1 := by
  rcases hstate with ⟨m, step, hs⟩ | ⟨st, hs⟩ <;>
    simp [Controller.onTaskError, Controller.onTaskErrorBody, Controller.stateHandleError,
      hs, WorkflowState.handleError, enterAnnotating, hlogin, hseg, hpoly,
      List.countP_cons, Event.isShowError]

/-- Witness for C6 at the concrete Save sub-step failure. -/
theorem claim_c6_witness :
    (cSwitchSave5.onTaskError 5 0 "save failed").1.state = .annotating
    ∧ (cSwitchSave5.onTaskError 5 0 "save failed").2.countP Event.isShowError = 1 :=
  claim_c6_substep_failure_error_once cSwitchSave5 5 0 "save failed" (by decide) (by decide)
    (by decide) (Or.inl ⟨sampleMeta, .SAVE, by decide⟩)

theorem Workspace.load_from_image (w : Workspace) (a : Nat) :
    (w.load_from a).image = w.image := by
  cases h : w.image <;> simp [Workspace.load_from, h]

/-- The controller after a pipeline edit arrives before any item was ever
loaded: `on_update_pipeline` marks the session dirty while
`current_metadata` is still `None`. -/
def c4AfterPipelineEdit : Controller := ((Controller.init true).step .updatePipeline).1

/-- Continuing: the user then selects an item: `_start_sequence` skips Save (no
current item) and goes straight to Load, submitting request 1. -/
def c4Switching : Controller :=
  (c4AfterPipelineEdit.step (.imageSelectedIntent sampleMeta)).1

/-- A well-formed load response carrying `result["data"]["annotations"]`. -/
def goodLoadPayload : PyVal :=
  .pdict { data_annotations := some 42, user_pwd := none, mask_sam := none,
           mask_binary := none, rgba_mask := none, embedding := none,
           polygons := none, image_ref := none }

/-- Continuing: the load Outcome for request 1 is accepted successfully. -/
def c4AfterLoadAccept : Controller :=
  (c4Switching.step (.deliverResult 1 0 goodLoadPayload)).1

/-- Claim C4 counterexample: a successful load Outcome targeting the (now
current) item is accepted — `current_metadata` becomes the target, the
Segment sub-step is entered — yet `Session.dirty` is still true afterwards:
the Load acceptance branch of `SwitchingState.handle_result` never clears
`dirty`. -/
theorem claim_c4_counterexample :
    c4Switching.state = .switching sampleMeta .LOAD (some 1)
    ∧ c4Switching.session.dirty = true
    ∧ c4AfterLoadAccept.session.current_metadata = some sampleMeta
    ∧ c4AfterLoadAccept.state = .switching sampleMeta .SEGMENT (some 2)
    ∧ c4AfterLoadAccept.session.dirty = true := by
  decide

theorem handleSegmentCommonResult_session (c : Controller) (d : DictVal) :
    (Controller.handleSegmentCommonResult c d).1.session = c.session := by
  cases hms : d.mask_sam <;> cases hmb : d.mask_binary <;>
    simp [Controller.handleSegmentCommonResult, hms, hmb]

theorem handleSegmentCommonResult_bgPoly (c : Controller) (d : DictVal) :
    (Controller.handleSegmentCommonResult c d).1.bgPoly = c.bgPoly := by
  cases hms : d.mask_sam <;> cases hmb : d.mask_binary <;>
    simp [Controller.handleSegmentCommonResult, hms, hmb]

theorem handleSegmentCommonResult_state (c : Controller) (d : DictVal) :
    (Controller.handleSegmentCommonResult c d).1.state = c.state := by
  cases hms : d.mask_sam <;> cases hmb : d.mask_binary <;>
    simp [Controller.handleSegmentCommonResult, hms, hmb]

theorem handleSegmentCommonResult_sched (c : Controller) (d : DictVal) :
    (Controller.handleSegmentCommonResult c d).1.sched = c.sched := by
  cases hms : d.mask_sam <;> cases hmb : d.mask_binary <;>
    simp [Controller.handleSegmentCommonResult, hms, hmb]

theorem bgCorrelatorStage_session (c1 : Controller) (r : Nat) (v : PyVal)
    (hpoly : c1.bgPoly ≠ some r) :
    (Controller.bgCorrelatorStage c1 r v).1.session = c1.session := by
  by_cases hseg : c1.bgSeg = some r <;> cases v <;>
    simp [Controller.bgCorrelatorStage, hseg, hpoly,
      handleSegmentCommonResult_bgPoly, handleSegmentCommonResult_session]

/-- Claim C4 (amended): immediately after the active state accepts a
successful save Outcome (Save sub-step of Switching) or submit Outcome
(Submitting push), `Session.dirty` is false; after accepting a successful
load Outcome, `Session.dirty` is unchanged from its value before the
delivery — hence false whenever the Save sub-step ran earlier in the same
switch, but not cleared by the load itself.  (`r` is not the login or
polygon background request; the polygon handler is the one place that sets
`dirty` back to true.) -/
theorem claim_c4_amended_dirty_after_success (c : Controller) (r g : Nat) (v : PyVal)
    (hlogin : c.bgLogin ≠ some r) (hpoly : c.bgPoly ≠ some r) :
    (∀ m, c.state = .switching m .SAVE (some r) →
        (c.onTaskResult r g v).1.session.dirty = false)
    ∧ (∀ st, c.state = .submitting st (some r) →
        (c.onTaskResult r g v).1.session.dirty = false)
    ∧ (∀ m d, c.state = .switching m .LOAD (some r) → v = .pdict d →
        d.data_annotations ≠ none →
        (c.onTaskResult r g v).1.session.dirty = c.session.dirty) := by
  refine ⟨?_, ?_, ?_⟩
  · intro m hs
    by_cases hbseg : c.bgSeg = some r <;>
      cases v <;>
      simp [Controller.onTaskResult, Controller.onTaskResultBody, Controller.stateHandleResult,
        hs, SwitchingState.handleResult, SwitchingState.doLoad, Workspace.load, reportStatus,
        Controller.submitTask, Scheduler.submit, hlogin, hpoly, hbseg,
        bgCorrelatorStage_session, Controller.notifyStatusUpdate]
  · intro st hs
    by_cases hbseg : c.bgSeg = some r <;>
      cases v <;>
      simp [Controller.onTaskResult, Controller.onTaskResultBody, Controller.stateHandleResult,
        hs, SubmittingState.handleResult, enterAnnotating, hlogin, hpoly, hbseg,
        bgCorrelatorStage_session, Controller.notifyStatusUpdate]
  · intro m d hs hv hann
    subst hv
    cases hd : d.data_annotations with
    | none => exact absurd hd hann
    | some a =>
        by_cases hbseg : c.bgSeg = some r <;>
          cases hsvc : c.segServiceAvailable <;>
          cases himg : c.workspace.image <;>
          simp [Controller.onTaskResult, Controller.onTaskResultBody,
            Controller.stateHandleResult, hs, SwitchingState.handleResult,
            SwitchingState.doSegment, Workspace.load_from, reportStatus, enterAnnotating,
            Controller.submitTask, Scheduler.submit, hlogin, hpoly, hbseg, hsvc, himg, hd,
            bgCorrelatorStage_session]

/-- Witness for the amended C4: accepting the Save success at the concrete
Save sub-step controller leaves `dirty = false`. -/
theorem claim_c4_amended_witness :
    (cSwitchSave5.onTaskResult 5 0 .pynone).1.session.dirty = false :=
  (claim_c4_amended_dirty_after_success cSwitchSave5 5 0 .pynone (by decide) (by decide)).1
    sampleMeta (by decide)

/-- What the `except Exception` recovery guarantees for an Outcome handler
that raised after performing mutations `c1` and emissions `evs`: the
workflow ends in Annotating, the internal error is surfaced; when the active
state was already Annotating nothing else changes beyond clearing the busy
indication, otherwise a transition to Annotating is forced. -/
def RecoversToAnnotating (out : Controller × List Event) (c1 : Controller)
    (evs : List Event) (msg : String) : Prop :=
  out.1.state = .annotating
  ∧ Event.showError ("Internal System Error: " ++ msg) ∈ out.2
  ∧ (c1.state.isAnnotating = true →
      out = (c1, evs ++ [Event.showError ("Internal System Error: " ++ msg),
                         .freezeUi false ""]))
  ∧ (c1.state.isAnnotating = false →
      out = ((enterAnnotating c1).1,
             evs ++ [Event.showError ("Internal System Error: " ++ msg)]
                 ++ (enterAnnotating c1).2))

theorem recoverFromHandlerException_spec (c1 : Controller) (evs : List Event)
    (msg : String) :
    RecoversToAnnotating (Controller.recoverFromHandlerException c1 evs msg) c1 evs msg := by
  by_cases h : c1.state.isAnnotating = true
  · have hst := WState.isAnnotating_eq_true h
    simp [RecoversToAnnotating, Controller.recoverFromHandlerException, h, hst,
      WState.isAnnotating]
  · simp only [Bool.not_eq_true] at h
    simp [RecoversToAnnotating, Controller.recoverFromHandlerException, h, enterAnnotating]

/-- Claim C7: any uncaught exception raised while processing an Outcome — in
the success handling path (`_on_task_result`) or the failure handling path
(`_on_task_error`) — is caught at the top level, an internal error is
surfaced on the error observer, and a transition to Annotating is forced
unless the active state is already Annotating, in which case only the busy
indication is cleared and no transition occurs. -/
theorem claim_c7_outcome_exception_recovery (c : Controller) (r g : Nat) :
    (∀ (v : PyVal) (c1 : Controller) (evs : List Event) (msg : String),
        c.onTaskResultBody r g v = .error (c1, evs, msg) →
        RecoversToAnnotating (c.onTaskResult r g v) c1 evs msg)
    ∧ (∀ (err : String) (c1 : Controller) (evs : List Event) (msg : String),
        c.onTaskErrorBody r g err = .error (c1, evs, msg) →
        RecoversToAnnotating (c.onTaskError r g err) c1 evs msg) := by
  constructor
  · intro v c1 evs msg h
    unfold Controller.onTaskResult
    rw [h]
    exact recoverFromHandlerException_spec c1 evs msg
  · intro err c1 evs msg h
    unfold Controller.onTaskError
    rw [h]
    exact recoverFromHandlerException_spec c1 evs msg

/-- A controller whose outstanding login request is id 3; a malformed login
result (`creds["user"]` raising) then exercises the exception path while the
state machine is in Annotating. -/
def cLogin3 : Controller := { Controller.init true with bgLogin := some 3 }

/-- Witness for C7 at a concrete throwing input. -/
theorem claim_c7_witness :
    RecoversToAnnotating (cLogin3.onTaskResult 3 0 (.nonDict 0)) cLogin3 []
      "TypeError: creds is not subscriptable" :=
  (claim_c7_outcome_exception_recovery cLogin3 3 0).1 (.nonDict 0) cLogin3 []
    "TypeError: creds is not subscriptable" rfl

/-- The controller shape produced by `on_update_points` at time `t`: dirty,
points stored, debounce timer re-armed to `t + DEBOUNCE_MS`. -/
def burstCtrl (c : Controller) (pts t : Nat) : Controller :=
  { c with session := { c.session with dirty := true },
           workspace := { c.workspace with points := pts },
           timerDeadline := some (t + DEBOUNCE_MS) }

theorem onUpdatePoints_eq_burstCtrl (c : Controller) (pts t : Nat) :
    c.onUpdatePoints pts t = (burstCtrl c pts t, []) := rfl

theorem burstCtrl_burstCtrl (c : Controller) (pts t0 t1 : Nat) :
    burstCtrl (burstCtrl c pts t0) pts t1 = burstCtrl c pts t1 := rfl

theorem fireTimerIfDue_burstCtrl_early (c : Controller) (pts t t' : Nat)
    (h : t' < t + DEBOUNCE_MS) :
    (burstCtrl c pts t).fireTimerIfDue t' = burstCtrl c pts t := by
  simp only [Controller.fireTimerIfDue, burstCtrl]
  rw [if_neg (by omega)]

/-- Processing an edit burst starting from an armed timer: every later edit
arrives before the pending deadline, so the timeout never fires inside the
burst; the final state is the burst shape armed at the last edit time. -/
theorem runTimed_burst (c : Controller) (pts : Nat) :
    ∀ (ts : List Nat) (t0 : Nat),
      List.Chain (fun a b => a < b ∧ b < a + DEBOUNCE_MS) t0 ts →
      (burstCtrl c pts t0).runTimed (ts.map (fun t => (t, Intent.updatePoints pts t)))
        = burstCtrl c pts (ts.getLastD t0) := by
  intro ts
  induction ts with
  | nil => intro t0 _; simp [Controller.runTimed]
  | cons t ts ih =>
      intro t0 h
      cases h with
      | cons hrel hchain =>
          simp only [List.map_cons, Controller.runTimed, Controller.step]
          rw [fireTimerIfDue_burstCtrl_early c pts t0 t hrel.2]
          rw [show ((burstCtrl c pts t0).onUpdatePoints pts t).1 = burstCtrl c pts t from rfl]
          rw [ih t hchain, List.getLastD_cons]

/-- Claim C9: for a burst of point edits whose consecutive gaps are below the
debounce delay (starting with the timer unarmed, a segmentation capability
available, the workflow idle in Annotating and an image loaded), no debounced
segmentation task is submitted while the burst is still running, and exactly
one is submitted once the delay elapses with no further edit — regardless of
the number of edits; a segmentation triggered by a pipeline-configuration
change (with an image and a cached SAM mask present) is submitted immediately
within the same call, leaving the debounce timer untouched. -/
theorem claim_c9_debounced_segmentation (c : Controller) (pts t0 : Nat) (ts : List Nat)
    (hstate : c.state = .annotating) (hseg : c.segServiceAvailable = true)
    (himg : c.workspace.image ≠ none) (htimer : c.timerDeadline = none)
    (hchain : List.Chain (fun a b => a < b ∧ b < a + DEBOUNCE_MS) t0 ts) :
    ((c.runTimed ((t0 :: ts).map (fun t => (t, Intent.updatePoints pts t)))).sched.log.countP
        (fun rec => rec.kind = TaskKind.debounceSegTask)
      = c.sched.log.countP (fun rec => rec.kind = TaskKind.debounceSegTask))
    ∧ ((c.runTimed ((t0 :: ts).map
          (fun t => (t, Intent.updatePoints pts t)))).flushTimer.sched.log.countP
        (fun rec => rec.kind = TaskKind.debounceSegTask)
      = c.sched.log.countP (fun rec => rec.kind = TaskKind.debounceSegTask) + 1)
    ∧ (∀ c' : Controller, c'.segServiceAvailable = true → c'.workspace.image ≠ none →
        c'.cachedMaskSam ≠ none →
        (c'.onUpdatePipeline.1.sched.log.countP
            (fun rec => rec.kind = TaskKind.pipelineSegTask)
          = c'.sched.log.countP (fun rec => rec.kind = TaskKind.pipelineSegTask) + 1)
        ∧ c'.onUpdatePipeline.1.timerDeadline = c'.timerDeadline) := by
  have hrun : c.runTimed ((t0 :: ts).map (fun t => (t, Intent.updatePoints pts t)))
      = burstCtrl c pts (ts.getLastD t0) := by
    simp only [List.map_cons, Controller.runTimed, Controller.step]
    rw [show c.fireTimerIfDue t0 = c by
      simp [Controller.fireTimerIfDue, htimer]]
    rw [show (c.onUpdatePoints pts t0).1 = burstCtrl c pts t0 from rfl]
    exact runTimed_burst c pts ts t0 hchain
  refine ⟨?_, ?_, ?_⟩
  · rw [hrun]; rfl
  · rw [hrun]
    cases himgv : c.workspace.image with
    | none => exact absurd himgv himg
    | some img =>
        simp [Controller.flushTimer, burstCtrl, Controller.onDebounceTimeout, hseg, hstate,
          WState.isAnnotating, himgv, Controller.submitTask, Scheduler.submit,
          List.countP_append]
  · intro c' hseg' himg' hmask'
    cases himgv : c'.workspace.image with
    | none => exact absurd himgv himg'
    | some img =>
        cases hmaskv : c'.cachedMaskSam with
        | none => exact absurd hmaskv hmask'
        | some msk =>
            constructor <;>
              simp [Controller.onUpdatePipeline, himgv, hmaskv,
                Controller.runPipelineSegmentation, hseg', Controller.submitTask,
                Scheduler.submit, List.countP_append]

/-- A fresh controller with a segmentation capability, an image loaded and a
cached SAM mask. -/
def cAnnotatingReady : Controller :=
  { Controller.init true with
      workspace := { image := some 10, embedding := none, points := 0, pipeline := 0,
                     polygons := 0 },
      cachedMaskSam := some 3 }

/-- Witness for C9: a three-edit burst at times 5, 105, 205 (gaps 100 ms,
below the 200 ms debounce) submits no debounced segmentation during the
burst. -/
theorem claim_c9_witness :
    (cAnnotatingReady.runTimed (([5, 105, 205] : List Nat).map
        (fun t => (t, Intent.updatePoints 7 t)))).sched.log.countP
        (fun rec => rec.kind = TaskKind.debounceSegTask)
      = cAnnotatingReady.sched.log.countP (fun rec => rec.kind = TaskKind.debounceSegTask) :=
  (claim_c9_debounced_segmentation cAnnotatingReady 7 5 [105, 205] rfl rfl (by decide) rfl
    (by refine List.Chain.cons ⟨?_, ?_⟩ (List.Chain.cons ⟨?_, ?_⟩ List.Chain.nil) <;>
      norm_num [DEBOUNCE_MS])).1

-- Scheduler-log bookkeeping: every submission site passes generation 0.

theorem mem_or_gen0_of (l : List SubRec) (rec : SubRec) (r : Nat) (k : TaskKind)
    (h : rec ∈ l ∨ rec = ⟨r, 0, k⟩) : rec ∈ l ∨ rec.generation = 0 := by
  rcases h with h | rfl
  · exact Or.inl h
  · exact Or.inr rfl

theorem doLoad_log (c : Controller) (t : ItemMeta) :
    (SwitchingState.doLoad c t).1.sched.log
      = c.sched.log ++ [⟨c.sched.nextId, 0, .loadTask⟩] := rfl

theorem startSequence_mem (c : Controller) (t : ItemMeta) (rec : SubRec)
    (hrec : rec ∈ (SwitchingState.startSequence c t).1.sched.log) :
    rec ∈ c.sched.log ∨ rec.generation = 0 := by
  unfold SwitchingState.startSequence at hrec
  cases hd : c.session.dirty <;> cases hm : c.session.current_metadata <;>
    rw [hd, hm] at hrec <;>
    simp only [doLoad_log, Controller.submitTask, Scheduler.submit, reportStatus] at hrec <;>
    simp at hrec <;>
    exact mem_or_gen0_of _ _ _ _ hrec

theorem doSegment_mem (c : Controller) (t : ItemMeta) (a : Nat) (rec : SubRec)
    (hrec : rec ∈ (SwitchingState.doSegment c t a).1.sched.log) :
    rec ∈ c.sched.log ∨ rec.generation = 0 := by
  have himg := Workspace.load_from_image c.workspace a
  unfold SwitchingState.doSegment at hrec
  cases hsvc : c.segServiceAvailable <;>
    cases himgv : (c.workspace.load_from a).image <;>
    rw [hsvc] at hrec <;>
    simp only [himgv, enterAnnotating, reportStatus, Controller.submitTask,
      Scheduler.submit] at hrec <;>
    simp at hrec <;>
    first
      | exact Or.inl hrec
      | exact mem_or_gen0_of _ _ _ _ hrec

theorem enterSwitching_mem (c : Controller) (t : ItemMeta) (rec : SubRec)
    (hrec : rec ∈ (enterSwitching c t).1.sched.log) :
    rec ∈ c.sched.log ∨ rec.generation = 0 := by
  unfold enterSwitching at hrec
  exact startSequence_mem c t rec (by simpa using hrec)

theorem enterSubmitting_log (c : Controller) (st : String) :
    (enterSubmitting c st).1.sched.log
      = c.sched.log ++ [⟨c.sched.nextId, 0, .pushTask⟩] := rfl

theorem handleSegmentImageResult_sched (c : Controller) (d : DictVal) :
    (Controller.handleSegmentImageResult c d).1.sched = c.sched := by
  cases he : d.embedding <;> cases hp : d.polygons <;>
    simp [Controller.handleSegmentImageResult, he, hp]

theorem handleManualPolygonResult_sched (c : Controller) (d : DictVal) :
    (Controller.handleManualPolygonResult c d).1.sched = c.sched := by
  cases hp : d.polygons <;> simp [Controller.handleManualPolygonResult, hp]


/-- The controller carried by either side of a handler result: the state of
the Python controller object at the moment the handler returned or raised. -/
def HandlerResult.ctrl : HandlerResult → Controller
  | .ok (c, _) => c
  | .error (c, _, _) => c

theorem switchingHandleResult_ctrl_mem (c : Controller) (t : ItemMeta) (step : SwitchStep)
    (rid : Option Nat) (r : Nat) (v : PyVal) (rec : SubRec)
    (hrec : rec ∈ (SwitchingState.handleResult c t step rid r v).ctrl.sched.log) :
    rec ∈ c.sched.log ∨ rec.generation = 0 := by
  by_cases hid : some r ≠ rid
  · simp only [SwitchingState.handleResult, if_pos hid, HandlerResult.ctrl] at hrec
    exact Or.inl hrec
  · cases step with
    | INIT =>
        simp only [SwitchingState.handleResult, if_neg hid, HandlerResult.ctrl] at hrec
        exact Or.inl hrec
    | SAVE =>
        simp only [SwitchingState.handleResult, if_neg hid, SwitchingState.doLoad,
          reportStatus, Controller.submitTask, Scheduler.submit, HandlerResult.ctrl] at hrec
        simp at hrec
        exact mem_or_gen0_of _ _ _ _ hrec
    | LOAD =>
        cases v with
        | pdict d =>
            cases ha : d.data_annotations with
            | none =>
                simp only [SwitchingState.handleResult, if_neg hid, ha,
                  HandlerResult.ctrl] at hrec
                exact Or.inl hrec
            | some a =>
                simp only [SwitchingState.handleResult, if_neg hid, ha,
                  HandlerResult.ctrl] at hrec
                have h := doSegment_mem
                  { c with session := { c.session with current_metadata := some t } }
                  t a rec hrec
                exact h
        | nonDict v' =>
            simp only [SwitchingState.handleResult, if_neg hid, HandlerResult.ctrl] at hrec
            exact Or.inl hrec
        | pynone =>
            simp only [SwitchingState.handleResult, if_neg hid, HandlerResult.ctrl] at hrec
            exact Or.inl hrec
    | SEGMENT =>
        cases v with
        | pdict d =>
            simp only [SwitchingState.handleResult, if_neg hid, enterAnnotating,
              HandlerResult.ctrl] at hrec
            rw [handleSegmentImageResult_sched] at hrec
            exact Or.inl hrec
        | nonDict v' =>
            simp only [SwitchingState.handleResult, if_neg hid, HandlerResult.ctrl] at hrec
            exact Or.inl hrec
        | pynone =>
            simp only [SwitchingState.handleResult, if_neg hid, HandlerResult.ctrl] at hrec
            exact Or.inl hrec

theorem submittingHandleResult_sched (c : Controller) (st : String) (rid : Option Nat)
    (r : Nat) (v : PyVal) :
    (SubmittingState.handleResult c st rid r v).1.sched = c.sched := by
  by_cases hid : some r ≠ rid
  · simp only [SubmittingState.handleResult, if_pos hid]
  · cases hm : c.session.current_metadata <;>
      simp [SubmittingState.handleResult, if_neg hid, hm, enterAnnotating]

theorem stateHandleResult_ctrl_mem (c : Controller) (r : Nat) (v : PyVal) (rec : SubRec)
    (hrec : rec ∈ (c.stateHandleResult r v).ctrl.sched.log) :
    rec ∈ c.sched.log ∨ rec.generation = 0 := by
  unfold Controller.stateHandleResult at hrec
  cases hst : c.state with
  | annotating => rw [hst] at hrec; exact Or.inl hrec
  | switching t step rid =>
      rw [hst] at hrec
      exact switchingHandleResult_ctrl_mem c t step rid r v rec hrec
  | submitting st rid =>
      rw [hst] at hrec
      simp only [HandlerResult.ctrl] at hrec
      rw [show (SubmittingState.handleResult c st rid r v).1.sched = c.sched from
        submittingHandleResult_sched c st rid r v] at hrec
      exact Or.inl hrec

theorem stateHandleError_sched (c : Controller) (r : Nat) (e : String) :
    (c.stateHandleError r e).1.sched = c.sched := by
  unfold Controller.stateHandleError
  cases c.state <;> simp [WorkflowState.handleError, enterAnnotating]

theorem recoverFromHandlerException_sched (c1 : Controller) (evs : List Event)
    (msg : String) :
    (Controller.recoverFromHandlerException c1 evs msg).1.sched = c1.sched := by
  unfold Controller.recoverFromHandlerException
  split <;> simp [enterAnnotating]


theorem bgCorrelatorStage_sched (c1 : Controller) (r : Nat) (v : PyVal) :
    (Controller.bgCorrelatorStage c1 r v).1.sched = c1.sched := by
  cases v <;> by_cases hseg : c1.bgSeg = some r <;>
    simp [Controller.bgCorrelatorStage, hseg, handleSegmentCommonResult_sched,
      handleManualPolygonResult_sched] <;>
    split <;>
    simp [handleSegmentCommonResult_sched, handleManualPolygonResult_sched]

theorem onTaskResultBody_ctrl_mem (c : Controller) (r g : Nat) (v : PyVal) (rec : SubRec)
    (hrec : rec ∈ (c.onTaskResultBody r g v).ctrl.sched.log) :
    rec ∈ c.sched.log ∨ rec.generation = 0 := by
  unfold Controller.onTaskResultBody at hrec
  by_cases hlog : c.bgLogin = some r
  · rw [if_pos hlog] at hrec
    cases v with
    | pdict d =>
        have hrec1 : rec ∈ (HandlerResult.ctrl (match d.user_pwd with
            | some _ => Except.ok (c, [Event.loginSuccess])
            | none => Except.error (c, [], "KeyError: user"))).sched.log := hrec
        cases hu : d.user_pwd <;> rw [hu] at hrec1 <;> exact Or.inl hrec1
    | nonDict v' => exact Or.inl hrec
    | pynone => exact Or.inl hrec
  · rw [if_neg hlog] at hrec
    rcases hbody : c.stateHandleResult r v with ⟨c1, evs1, msg1⟩ | ⟨c1, evs1⟩ <;>
      rw [hbody] at hrec
    · have hrec1 : rec ∈ c1.sched.log := hrec
      have h2 : rec ∈ (c.stateHandleResult r v).ctrl.sched.log := by
        rw [hbody]; exact hrec1
      exact stateHandleResult_ctrl_mem c r v rec h2
    · have hrec1 : rec ∈ (Controller.bgCorrelatorStage c1 r v).1.sched.log := hrec
      rw [bgCorrelatorStage_sched] at hrec1
      have h2 : rec ∈ (c.stateHandleResult r v).ctrl.sched.log := by
        rw [hbody]; exact hrec1
      exact stateHandleResult_ctrl_mem c r v rec h2

theorem onTaskResult_mem (c : Controller) (r g : Nat) (v : PyVal) (rec : SubRec)
    (hrec : rec ∈ (c.onTaskResult r g v).1.sched.log) :
    rec ∈ c.sched.log ∨ rec.generation = 0 := by
  unfold Controller.onTaskResult at hrec
  rcases hbody : c.onTaskResultBody r g v with ⟨c1, evs1, msg1⟩ | ⟨c1, evs1⟩ <;>
    rw [hbody] at hrec
  · have hrec1 : rec ∈ (Controller.recoverFromHandlerException c1 evs1 msg1).1.sched.log :=
      hrec
    rw [recoverFromHandlerException_sched] at hrec1
    apply onTaskResultBody_ctrl_mem c r g v rec
    rw [hbody]
    exact hrec1
  · apply onTaskResultBody_ctrl_mem c r g v rec
    rw [hbody]
    exact hrec

theorem onTaskErrorBody_ctrl_sched (c : Controller) (r g : Nat) (e : String) :
    (c.onTaskErrorBody r g e).ctrl.sched = c.sched := by
  unfold Controller.onTaskErrorBody
  by_cases hlog : c.bgLogin = some r
  · simp [hlog, HandlerResult.ctrl]
  · by_cases hb : (c.stateHandleError r e).1.bgSeg = some r ∨
        (c.stateHandleError r e).1.bgPoly = some r <;>
      simp [if_neg hlog, hb, HandlerResult.ctrl, stateHandleError_sched]

theorem onTaskError_sched (c : Controller) (r g : Nat) (e : String) :
    (c.onTaskError r g e).1.sched = c.sched := by
  unfold Controller.onTaskError
  rcases hbody : c.onTaskErrorBody r g e with ⟨c1, evs1, msg1⟩ | ⟨c1, evs1⟩
  · have h := onTaskErrorBody_ctrl_sched c r g e
    rw [hbody] at h
    have h2 : (Controller.recoverFromHandlerException c1 evs1 msg1).1.sched = c1.sched :=
      recoverFromHandlerException_sched c1 evs1 msg1
    exact h2.trans h
  · have h := onTaskErrorBody_ctrl_sched c r g e
    rw [hbody] at h
    exact h

/-- Every scheduler-log record added by any coordinating-loop step carries
generation 0: the embedding's submission sites all pass the literal 0, as
every call site in `controller.py` and `states.py` does. -/
theorem step_mem_gen0 (c : Controller) (i : Intent) (rec : SubRec)
    (hrec : rec ∈ ((c.step i).1).sched.log) : rec ∈ c.sched.log ∨ rec.generation = 0 := by
  cases i with
  | imageSelectedIntent m =>
      unfold Controller.step Controller.onImageSelected at hrec
      cases hst : c.state with
      | annotating => rw [hst] at hrec; exact enterSwitching_mem c m rec hrec
      | switching t st rid => rw [hst] at hrec; exact Or.inl hrec
      | submitting st rid => rw [hst] at hrec; exact Or.inl hrec
  | submitIntent =>
      unfold Controller.step Controller.onSubmitCurrent at hrec
      cases hst : c.state with
      | annotating =>
          rw [hst] at hrec
          cases hm : c.session.current_metadata with
          | some mm =>
              rw [hm] at hrec
              have hrec1 : rec ∈ (enterSubmitting c "Submitted").1.sched.log := hrec
              rw [enterSubmitting_log] at hrec1
              simp at hrec1
              exact mem_or_gen0_of _ _ _ _ hrec1
          | none => rw [hm] at hrec; exact Or.inl hrec
      | switching t st rid => rw [hst] at hrec; exact Or.inl hrec
      | submitting st rid => rw [hst] at hrec; exact Or.inl hrec
  | abolishIntent =>
      unfold Controller.step Controller.onAbolishCurrent at hrec
      cases hst : c.state with
      | annotating =>
          rw [hst] at hrec
          cases hm : c.session.current_metadata with
          | some mm =>
              rw [hm] at hrec
              have hrec1 : rec ∈ (enterSubmitting c "Skipped").1.sched.log := hrec
              rw [enterSubmitting_log] at hrec1
              simp at hrec1
              exact mem_or_gen0_of _ _ _ _ hrec1
          | none => rw [hm] at hrec; exact Or.inl hrec
      | switching t st rid => rw [hst] at hrec; exact Or.inl hrec
      | submitting st rid => rw [hst] at hrec; exact Or.inl hrec
  | updatePoints p t => exact Or.inl hrec
  | updatePipeline =>
      simp only [Controller.step, Controller.onUpdatePipeline,
        Controller.runPipelineSegmentation] at hrec
      cases himg : c.workspace.image <;> cases hmask : c.cachedMaskSam <;>
        simp only [himg, hmask] at hrec
      · exact Or.inl hrec
      · exact Or.inl hrec
      · exact Or.inl hrec
      · by_cases hsvc : c.segServiceAvailable = false
        · rw [if_pos hsvc] at hrec; exact Or.inl hrec
        · rw [if_neg hsvc] at hrec
          simp [Controller.submitTask, Scheduler.submit] at hrec
          exact mem_or_gen0_of _ _ _ _ hrec
  | updatePolygons i p => exact Or.inl hrec
  | updatePolygonsFromCanvas p => exact Or.inl hrec
  | actionGeneratePolygons =>
      unfold Controller.step Controller.onActionGeneratePolygons at hrec
      by_cases hsvc : c.segServiceAvailable = false
      · rw [if_pos hsvc] at hrec; exact Or.inl hrec
      · rw [if_neg hsvc] at hrec
        cases hmask : c.cachedMaskBinary with
        | none => rw [hmask] at hrec; exact Or.inl hrec
        | some mb =>
            rw [hmask] at hrec
            cases himg : c.workspace.image with
            | none => rw [himg] at hrec; exact Or.inl hrec
            | some img =>
                rw [himg] at hrec
                simp [Controller.submitTask, Scheduler.submit] at hrec
                exact mem_or_gen0_of _ _ _ _ hrec
  | loginIntent =>
      unfold Controller.step Controller.requestLogin at hrec
      simp [Controller.submitTask, Scheduler.submit] at hrec
      exact mem_or_gen0_of _ _ _ _ hrec
  | debounceTimeout =>
      unfold Controller.step Controller.onDebounceTimeout at hrec
      by_cases h1 : c.segServiceAvailable = false
      · rw [if_pos h1] at hrec; exact Or.inl hrec
      · rw [if_neg h1] at hrec
        by_cases h2 : c.state.isAnnotating = false
        · rw [if_pos h2] at hrec; exact Or.inl hrec
        · rw [if_neg h2] at hrec
          cases himg : c.workspace.image with
          | none => rw [himg] at hrec; exact Or.inl hrec
          | some img =>
              rw [himg] at hrec
              simp [Controller.submitTask, Scheduler.submit] at hrec
              exact mem_or_gen0_of _ _ _ _ hrec
  | deliverResult r g v => exact onTaskResult_mem c r g v rec hrec
  | deliverError r g e =>
      have h : ((c.step (.deliverError r g e)).1).sched = c.sched :=
        onTaskError_sched c r g e
      rw [h] at hrec
      exact Or.inl hrec

theorem fetchList_log (ec : ExplorerController) (level : String)
    (params : List (String × Option Nat)) :
    ((ec.fetchList level params).1).sched.log
      = ec.sched.log ++ [⟨ec.sched.nextId, 0, .listTask⟩] := rfl

theorem downloadThumbnail_log (ec : ExplorerController) (imageId : Nat) :
    ((ec.downloadThumbnail imageId).1).sched.log
      = ec.sched.log ++ [⟨ec.sched.nextId, 0, .downloadTask⟩] := rfl

/-- Claim C10: every task submission in the program passes the constant
generation 0 — any coordinating-loop step of the Controller, and both
submission entry points of the ExplorerController, extend a generation-0
scheduler log only with generation-0 records — and no Outcome consumer's
behaviour depends on the generation value: both controllers' result and
error handlers return identical states and identical observer emissions for
any two generation values attached to the delivered Outcome. -/
theorem claim_c10_generation_constant_and_ignored :
    (∀ (c : Controller) (i : Intent),
        (∀ rec ∈ c.sched.log, rec.generation = 0) →
        ∀ rec ∈ ((c.step i).1).sched.log, rec.generation = 0)
    ∧ (∀ (ec : ExplorerController) (level : String) (params : List (String × Option Nat)),
        (∀ rec ∈ ec.sched.log, rec.generation = 0) →
        ∀ rec ∈ ((ec.fetchList level params).1).sched.log, rec.generation = 0)
    ∧ (∀ (ec : ExplorerController) (imageId : Nat),
        (∀ rec ∈ ec.sched.log, rec.generation = 0) →
        ∀ rec ∈ ((ec.downloadThumbnail imageId).1).sched.log, rec.generation = 0)
    ∧ (∀ (c : Controller) (r g g' : Nat) (v : PyVal),
        c.onTaskResult r g v = c.onTaskResult r g' v)
    ∧ (∀ (c : Controller) (r g g' : Nat) (e : String),
        c.onTaskError r g e = c.onTaskError r g' e)
    ∧ (∀ (ec : ExplorerController) (r g g' : Nat) (v : PyVal),
        ec.onTaskResult r g v = ec.onTaskResult r g' v)
    ∧ (∀ (ec : ExplorerController) (r g g' : Nat) (e : String),
        ec.onTaskError r g e = ec.onTaskError r g' e) := by
  refine ⟨?_, ?_, ?_, ?_, ?_, ?_, ?_⟩
  · intro c i hall rec hrec
    rcases step_mem_gen0 c i rec hrec with h | h
    · exact hall rec h
    · exact h
  · intro ec level params hall rec hrec
    rw [fetchList_log] at hrec
    rcases List.mem_append.mp hrec with h | h
    · exact hall rec h
    · simp at h; subst h; rfl
  · intro ec imageId hall rec hrec
    rw [downloadThumbnail_log] at hrec
    rcases List.mem_append.mp hrec with h | h
    · exact hall rec h
    · simp at h; subst h; rfl
  · intro c r g g' v; rfl
  · intro c r g g' e; rfl
  · intro ec r g g' v; rfl
  · intro ec r g g' e; rfl

/-- Witness for C10: a fresh controller submitting the login task only adds
generation-0 records. -/
theorem claim_c10_witness :
    ∀ rec ∈ (((Controller.init true).step Intent.loginIntent).1).sched.log,
      rec.generation = 0 :=
  claim_c10_generation_constant_and_ignored.1 (Controller.init true) .loginIntent
    (by simp [Controller.init, Scheduler.init])

/-- A browser sitting at the `case` level with sequence counter 4, not in
auto-search mode. -/
def explorerAt4 : Explorer :=
  { historyStack := [], currentLevel := "case", currentParams := [("project_id", some 1)],
    title := "病例", currentProjectId := some 1, currentCaseId := none,
    currentCaseName := "", reqSequence := 4, queryPending := true, queryAnnotating := true,
    querySubmitted := false, querySkipped := false, autoMode := false, isSearching := false,
    autoSkipIds := [], viewItems := [], baseCacheDir := "cache" }

/-- Continuing: after two back-to-back `execute_request` calls (issuing sequence
numbers 5 and then 6). -/
def explorerAt6 : Explorer := ((explorerAt4.executeRequest).1.executeRequest).1

def caseResp : ListResponse :=
  { code := 200, msg := "", items := [{ id := 9, name := "n", attachment := "a" }] }

/-- Claim C8: a list-fetch response updates the resource browser only when
the sequence number echoed in its request parameters equals the browser's
latest issued sequence number — any response whose echoed number differs is
discarded with no state change and no outward effect; in particular, with
requests 5 then 6 outstanding, the response echoing 5 is dropped and the
response echoing 6 sets the view to its rows. -/
theorem claim_c8_list_response_sequence_filtering (fe : String → Bool) :
    (∀ (ex : Explorer) (ty : String) (resp : ListResponse) (rp : ReqParams),
        ((rp.reqSeq.map Int.ofNat).getD (-1)) ≠ (ex.reqSequence : Int) →
        Explorer.onDataLoaded fe ex ty resp rp = (ex, []))
    ∧ explorerAt6.reqSequence = 6
    ∧ (Explorer.onDataLoaded fe explorerAt6 "case" caseResp
        { params := explorerAt6.currentParams, reqSeq := some 5 } = (explorerAt6, []))
    ∧ ((Explorer.onDataLoaded fe explorerAt6 "case" caseResp
        { params := explorerAt6.currentParams, reqSeq := some 6 }).1.viewItems
        = caseResp.items.map ViewItem.entryItem) := by
  refine ⟨?_, rfl, ?_, ?_⟩
  · intro ex ty resp rp h
    unfold Explorer.onDataLoaded
    by_cases hty : ty ≠ ex.currentLevel
    · rw [if_pos hty]
    · rw [if_neg hty, if_pos h]
  · rfl
  · rfl

/-- Witness for C8: the late response echoing sequence 5 after 6 was issued
is discarded. -/
theorem claim_c8_witness :
    Explorer.onDataLoaded (fun _ => false) explorerAt6 "case" caseResp
      { params := explorerAt6.currentParams, reqSeq := some 5 } = (explorerAt6, []) :=
  (claim_c8_list_response_sequence_filtering (fun _ => false)).1 explorerAt6 "case" caseResp
    { params := explorerAt6.currentParams, reqSeq := some 5 } (by decide)
